import Mathlib

/-!
Verification development for the meshcore-stats repository.

The Go sources are shallowly embedded: bytes are `Nat` (values < 256 on the
wire), byte strings are `List Nat`, machine integers are `Nat`/`Int` with
explicit truncation where the Go code truncates, fallible functions return
`Except`/`Option`, and a Go run-time panic (out-of-range slice) is modelled
as `Option.none` wrapped around the result.  Stateful loops are embedded as
explicit state passing over finite schedules of transport behaviour.
-/

namespace MeshStats

/-! ## Byte-level helpers (encoding/binary, trimNull) -/

/-- Little-endian 16-bit value from two bytes (binary.LittleEndian.Uint16). -/
def le16 (lo hi : Nat) : Nat := lo + 256 * hi

/-- Little-endian 32-bit value from four bytes (binary.LittleEndian.Uint32). -/
def le32 (b0 b1 b2 b3 : Nat) : Nat := b0 + 256 * b1 + 65536 * b2 + 16777216 * b3

/-- Reinterpret a byte as a Go int8. -/
def toInt8 (b : Nat) : Int := if b < 128 then (b : Int) else (b : Int) - 256

/-- Reinterpret a 16-bit value as a Go int16. -/
def toInt16 (v : Nat) : Int := if v < 32768 then (v : Int) else (v : Int) - 65536

/-- Reinterpret a 32-bit value as a Go int32. -/
def toInt32 (v : Nat) : Int :=
  if v < 2147483648 then (v : Int) else (v : Int) - 4294967296

/-- Go slice read data[i] with the bound check made explicit: `none` models the
run-time panic on an out-of-range index. -/
def idx (d : List Nat) (i : Nat) : Option Nat :=
  if i < d.length then some (d.getD i 0) else none

/-- Go expression binary.LittleEndian.Uint16(data[i:i+2]) with the slice bound
check made explicit: `none` models the run-time panic. -/
def sliceU16 (d : List Nat) (i : Nat) : Option Nat :=
  if i + 2 ≤ d.length then some (le16 (d.getD i 0) (d.getD (i + 1) 0)) else none

/-- Go expression binary.LittleEndian.Uint32(data[i:i+4]) with the slice bound
check made explicit: `none` models the run-time panic. -/
def sliceU32 (d : List Nat) (i : Nat) : Option Nat :=
  if i + 4 ≤ d.length then
    some (le32 (d.getD i 0) (d.getD (i + 1) 0) (d.getD (i + 2) 0) (d.getD (i + 3) 0))
  else none

/-- Go slice expression data[a:b] with the bound check made explicit: `none`
models the run-time panic on an out-of-range slice. -/
def sliceBytes (d : List Nat) (a b : Nat) : Option (List Nat) :=
  if a ≤ b ∧ b ≤ d.length then some ((d.drop a).take (b - a)) else none

/-- Embeds trimNull from protocol.go: the bytes before the first zero byte,
or the whole input when no zero byte occurs. -/
def trimNull (b : List Nat) : List Nat := b.takeWhile (fun c => c ≠ 0)

/-- Splits a byte string at the first occurrence of sep: `none` when sep does
not occur, otherwise the parts before and after it.  Building block for the
strings.SplitN(s, sep, 3) call in ParseOwnerInfoResponse. -/
def splitOnFirst (sep : Nat) : List Nat → Option (List Nat × List Nat)
  | [] => none
  | c :: rest =>
    if c = sep then some ([], rest)
    else (splitOnFirst sep rest).map (fun p => (c :: p.1, p.2))

deriving instance DecidableEq for Except

/-! ## Protocol message layer (protocol.go) -/

/-- Response and push opcodes from protocol.go. -/
def RespCodeSelfInfo : Nat := 5
/-- Contacts-start response opcode. -/
def RespCodeContactsStart : Nat := 2
/-- Contact record response opcode. -/
def RespCodeContact : Nat := 3
/-- Sent-ack response opcode. -/
def RespCodeSent : Nat := 6
/-- Version response opcode. -/
def RespCodeVersion : Nat := 8
/-- Stats response opcode. -/
def RespCodeStats : Nat := 24
/-- Login success push opcode (0x85). -/
def PushCodeLoginSuccess : Nat := 0x85
/-- Status response push opcode (0x87). -/
def PushCodeStatusResponse : Nat := 0x87
/-- Binary response push opcode (0x8C). -/
def PushCodeBinaryResponse : Nat := 0x8C

/-- Error outcomes of the parse functions, one constructor per distinct
fmt.Errorf / errors.New site shape in protocol.go. -/
inductive PErr where
  /-- an insufficient-data error carrying the length received -/
  | insufficient (got : Nat)
  /-- an unexpected-response-code error carrying the leading byte -/
  | badOpcode (got : Nat)
  /-- the combined invalid-response-type error of the ParseStats functions -/
  | invalidType
  /-- the empty-response error of ParseVersion -/
  | empty
deriving DecidableEq, Repr

/-- StatsCore record from protocol.go. -/
structure StatsCore where
  BatteryMV : Nat
  UptimeSecs : Nat
  Errors : Nat
  QueueLen : Nat
deriving DecidableEq, Repr

/-- StatsRadio record from protocol.go.  LastSNRx4 holds the raw signed byte;
the Go code divides it by 4.0 into a float64, which we keep unscaled to avoid
floating point. -/
structure StatsRadio where
  NoiseFloor : Int
  LastRSSI : Int
  LastSNRx4 : Int
  TxAirSecs : Nat
  RxAirSecs : Nat
deriving DecidableEq, Repr

/-- StatsPackets record from protocol.go. -/
structure StatsPackets where
  Recv : Nat
  Sent : Nat
  FloodTx : Nat
  DirectTx : Nat
  FloodRx : Nat
  DirectRx : Nat
deriving DecidableEq, Repr

/-- SelfInfo record from protocol.go.  Latitude and longitude are kept as the
raw signed 32-bit micro-degree integers (the Go code divides by 1e6 into
float64). -/
structure SelfInfo where
  PubKey : List Nat
  Name : List Nat
  LatE6 : Int
  LonE6 : Int
deriving DecidableEq, Repr

/-- Contact record from protocol.go, lat/lon kept as raw micro-degrees.  The
Go field Type is renamed Typ because Type is a Lean keyword. -/
structure Contact where
  PubKey : List Nat
  Typ : Nat
  Flags : Nat
  Name : List Nat
  OutPathLen : Int
  LatE6 : Int
  LonE6 : Int
deriving DecidableEq, Repr

/-- Embeds ParseStatusResponse from protocol.go.  The outer `Option` models a
Go run-time panic: `none` means an out-of-range slice access occurred. -/
def ParseStatusResponse (d : List Nat) :
    Option (Except PErr (StatsCore × StatsRadio × StatsPackets)) :=
  if d.length < 8 then some (.error (.insufficient d.length))
  else if d.getD 0 0 ≠ PushCodeStatusResponse then some (.error (.badOpcode (d.getD 0 0)))
  else if d.length < 48 then some (.error (.insufficient d.length))
  else do
    let battery ← sliceU16 d 8
    let queue ← idx d 10
    let uptime ← sliceU32 d 28
    let rssi ← idx d 12
    let snr ← idx d 14
    let txAir ← sliceU32 d 24
    let rxAir ← sliceU32 d 56
    let recv ← sliceU32 d 16
    let sent ← sliceU32 d 20
    let floodTx ← sliceU32 d 32
    let directTx ← sliceU32 d 36
    let floodRx ← sliceU32 d 40
    let directRx ← sliceU32 d 44
    pure (Except.ok
      (⟨battery, uptime, 0, queue⟩,
       ⟨0, toInt8 rssi, toInt8 snr, txAir, rxAir⟩,
       ⟨recv, sent, floodTx, directTx, floodRx, directRx⟩))

/-- Embeds ParseSelfInfo from protocol.go (name and pubkey as byte lists). -/
def ParseSelfInfo (d : List Nat) : Option (Except PErr SelfInfo) :=
  if d.length < 58 then some (.error (.insufficient d.length))
  else if d.getD 0 0 ≠ RespCodeSelfInfo then some (.error (.badOpcode (d.getD 0 0)))
  else do
    let lat ← sliceU32 d 36
    let lon ← sliceU32 d 40
    pure (Except.ok
      { PubKey := ((d.drop 4).take 32)
        Name := if 58 < d.length then trimNull (d.drop 58) else []
        LatE6 := toInt32 lat
        LonE6 := toInt32 lon })

/-- Embeds ParseStatsCore from protocol.go. -/
def ParseStatsCore (d : List Nat) : Option (Except PErr StatsCore) :=
  if d.length < 11 then some (.error (.insufficient d.length))
  else if d.getD 0 0 ≠ RespCodeStats ∨ d.getD 1 0 ≠ 0 then
    some (.error .invalidType)
  else do
    let battery ← sliceU16 d 2
    let uptime ← sliceU32 d 4
    let errs ← sliceU16 d 8
    let queue ← idx d 10
    pure (Except.ok ⟨battery, uptime, errs, queue⟩)

/-- Embeds ParseStatsRadio from protocol.go. -/
def ParseStatsRadio (d : List Nat) : Option (Except PErr StatsRadio) :=
  if d.length < 14 then some (.error (.insufficient d.length))
  else if d.getD 0 0 ≠ RespCodeStats ∨ d.getD 1 0 ≠ 1 then
    some (.error .invalidType)
  else do
    let nf ← sliceU16 d 2
    let rssi ← idx d 4
    let snr ← idx d 5
    let txAir ← sliceU32 d 6
    let rxAir ← sliceU32 d 10
    pure (Except.ok ⟨toInt16 nf, toInt8 rssi, toInt8 snr, txAir, rxAir⟩)

/-- Embeds ParseStatsPackets from protocol.go. -/
def ParseStatsPackets (d : List Nat) : Option (Except PErr StatsPackets) :=
  if d.length < 26 then some (.error (.insufficient d.length))
  else if d.getD 0 0 ≠ RespCodeStats ∨ d.getD 1 0 ≠ 2 then
    some (.error .invalidType)
  else do
    let recv ← sliceU32 d 2
    let sent ← sliceU32 d 6
    let floodTx ← sliceU32 d 10
    let directTx ← sliceU32 d 14
    let floodRx ← sliceU32 d 18
    let directRx ← sliceU32 d 22
    pure (Except.ok ⟨recv, sent, floodTx, directTx, floodRx, directRx⟩)

/-- The byte string unknown, the version ParseVersion reports for a 1-byte
response. -/
def unknownVersion : List Nat := [117, 110, 107, 110, 111, 119, 110]

/-- Embeds ParseVersion from protocol.go. -/
def ParseVersion (d : List Nat) : Option (Except PErr (List Nat)) :=
  if d.length < 1 then some (.error .empty)
  else if d.getD 0 0 ≠ RespCodeVersion then
    some (.error (.badOpcode (d.getD 0 0)))
  else if d.length = 1 then some (.ok unknownVersion)
  else some (.ok (trimNull (d.drop 1)))

/-- Embeds ParseOwnerInfoResponse from protocol.go: the null-trimmed payload
after the 12-byte header, split at the first two newline bytes into version,
node name and owner info (strings.SplitN with limit 3; missing parts stay
empty). -/
def ParseOwnerInfoResponse (d : List Nat) :
    Option (Except PErr (List Nat × List Nat × List Nat)) :=
  if d.length < 13 then some (.error (.insufficient d.length))
  else if d.getD 0 0 ≠ PushCodeBinaryResponse then
    some (.error (.badOpcode (d.getD 0 0)))
  else
    let payload := trimNull (d.drop 12)
    match splitOnFirst 10 payload with
    | none => some (.ok (payload, [], []))
    | some (version, rest1) =>
      match splitOnFirst 10 rest1 with
      | none => some (.ok (version, rest1, []))
      | some (nodeName, rest2) => some (.ok (version, nodeName, rest2))

/-- Embeds ParseContactsStart from protocol.go. -/
def ParseContactsStart (d : List Nat) : Option (Except PErr Nat) :=
  if d.length < 5 then some (.error (.insufficient d.length))
  else if d.getD 0 0 ≠ RespCodeContactsStart then
    some (.error (.badOpcode (d.getD 0 0)))
  else do
    let count ← sliceU32 d 1
    pure (Except.ok count)

/-- Embeds ParseContact from protocol.go. -/
def ParseContact (d : List Nat) : Option (Except PErr Contact) :=
  if d.length < 148 then some (.error (.insufficient d.length))
  else if d.getD 0 0 ≠ RespCodeContact then
    some (.error (.badOpcode (d.getD 0 0)))
  else do
    let pubKey ← sliceBytes d 1 33
    let typ ← idx d 33
    let flags ← idx d 34
    let outPathLen ← idx d 35
    let nameRaw ← sliceBytes d 100 132
    let lat ← sliceU32 d 136
    let lon ← sliceU32 d 140
    pure (Except.ok
      { PubKey := pubKey, Typ := typ, Flags := flags
        Name := trimNull nameRaw, OutPathLen := toInt8 outPathLen
        LatE6 := toInt32 lat, LonE6 := toInt32 lon })

/-- Embeds ParseSentResponse from protocol.go: the flood flag, the tag and
the timeout value. -/
def ParseSentResponse (d : List Nat) :
    Option (Except PErr (Bool × Nat × Nat)) :=
  if d.length < 10 then some (.error (.insufficient d.length))
  else if d.getD 0 0 ≠ RespCodeSent then
    some (.error (.badOpcode (d.getD 0 0)))
  else do
    let fl ← idx d 1
    let tag ← sliceU32 d 2
    let tmo ← sliceU32 d 6
    pure (Except.ok (fl == 1, tag, tmo))

/-- Embeds ParseLoginSuccess from protocol.go: the 6-byte pubkey prefix. -/
def ParseLoginSuccess (d : List Nat) : Option (Except PErr (List Nat)) :=
  if d.length < 8 then some (.error (.insufficient d.length))
  else if d.getD 0 0 ≠ PushCodeLoginSuccess then
    some (.error (.badOpcode (d.getD 0 0)))
  else do
    let p ← sliceBytes d 2 8
    pure (Except.ok p)

/-! ## Frame codec (serial.go)

The serial transport is modelled by a schedule together with a byte buffer.
The schedule lists, for each successive port.Read call, how many bytes the
transport has available to deliver in that call (`some d`), or that the call
fails with a transport error (`none`); an exhausted schedule is also modelled
as a failing read.  A Read call with buffer size k delivers
min(k, d, bytes remaining) bytes, exactly the io.Reader contract the Go code
is written against. -/

/-- Client-to-device frame marker, the byte value of the Go rune literal. -/
def frameHeaderTx : Nat := 60
/-- Device-to-client frame marker, the byte value of the Go rune literal. -/
def frameHeaderRx : Nat := 62
/-- Maximum frame size from serial.go. -/
def maxFrameSize : Nat := 512

/-- Error outcomes of readFrame, one constructor per error site. -/
inductive ReadErr where
  /-- failed to read the frame header (transport error) -/
  | headerFail
  /-- invalid frame header, carrying the byte received -/
  | badHeader (got : Nat)
  /-- frame too large, carrying the declared length -/
  | tooLarge (n : Nat)
  /-- failed to read the frame payload (transport error) -/
  | payloadFail
deriving DecidableEq, Repr

/-- One port.Read call with a buffer of size bufSize: delivers the next bytes
according to the schedule, or `none` for a read error. -/
def portRead (bufSize : Nat) (sched : List (Option Nat)) (buf : List Nat) :
    Option (List Nat × List (Option Nat) × List Nat) :=
  match sched with
  | [] => none
  | none :: _ => none
  | some d :: rest =>
    let n := min bufSize (min d buf.length)
    some (buf.take n, rest, buf.drop n)

/-- Embeds the payload accumulation loop of readFrame in serial.go: repeated
reads into payload[totalRead:] until frameLen bytes are accumulated. -/
def readPayloadLoop (frameLen : Nat) :
    List (Option Nat) → List Nat → List Nat →
    Except ReadErr (List Nat × List (Option Nat) × List Nat)
  | sched, acc, buf =>
    if acc.length < frameLen then
      match sched with
      | [] => .error .payloadFail
      | none :: _ => .error .payloadFail
      | some d :: rest =>
        let n := min (frameLen - acc.length) (min d buf.length)
        readPayloadLoop frameLen rest (acc ++ buf.take n) (buf.drop n)
    else .ok (acc, sched, buf)

/-- Embeds readFrame from serial.go.  The header is obtained by a single
port.Read call whose byte count is ignored (the Go code discards n); the
3-byte header buffer keeps its zero initialisation for bytes the call did not
deliver.  On success the payload is returned with the remaining schedule and
buffer. -/
def readFrame (sched : List (Option Nat)) (buf : List Nat) :
    Except ReadErr (List Nat × List (Option Nat) × List Nat) :=
  match portRead 3 sched buf with
  | none => .error .headerFail
  | some (got, sched1, buf1) =>
    let hdr := got ++ List.replicate (3 - got.length) 0
    if hdr.getD 0 0 ≠ frameHeaderRx then .error (.badHeader (hdr.getD 0 0))
    else
      let frameLen := le16 (hdr.getD 1 0) (hdr.getD 2 0)
      if maxFrameSize < frameLen then .error (.tooLarge frameLen)
      else readPayloadLoop frameLen sched1 [] buf1

/-- Payload projection of readFrame. -/
def readFramePayload (sched : List (Option Nat)) (buf : List Nat) :
    Except ReadErr (List Nat) :=
  match readFrame sched buf with
  | .ok (p, _, _) => .ok p
  | .error e => .error e

/-- Embeds the frame construction in sendCommand from serial.go: header byte,
little-endian 16-bit length (Go truncates the length to uint16), payload. -/
def encodeFrame (hdr : Nat) (cmd : List Nat) : List Nat :=
  hdr :: (cmd.length % 65536) % 256 :: ((cmd.length % 65536) / 256) % 256 :: cmd

/-! ## Transport session loops (serial.go)

The loops readCommandResponse and WaitForPushCode are embedded over the
sequence of readFrame outcomes they observe: each element is either a decoded
frame payload or a read error.  For WaitForPushCode the list holds exactly
the reads that start before the wall-clock deadline computed from the
timeout; an exhausted list therefore means the deadline passed.  For
readCommandResponse an exhausted list is modelled as a failing read. -/

/-- Error classification used by the polling code: isSerialError in the main
package matches a fixed set of message substrings; the embedding carries the
classification as a field instead of re-deriving it from message text. -/
structure GoErr where
  serial : Bool
deriving DecidableEq, Repr

/-- Embeds isPushCode from serial.go. -/
def isPushCode (code : Nat) : Bool := 0x80 ≤ code

/-- Embeds readCommandResponse from serial.go: frames whose leading opcode is
a push code are handed to the push dispatcher and reading continues; the
first other frame is the command response.  The second component collects the
frames passed to handlePushMessage, in order. -/
def readCommandResponse :
    List (Except GoErr (List Nat)) → Except GoErr (List Nat) × List (List Nat)
  | [] => (.error ⟨true⟩, [])
  | .error e :: _ => (.error e, [])
  | .ok d :: rest =>
    if 0 < d.length ∧ isPushCode (d.getD 0 0) = true then
      let r := readCommandResponse rest
      (r.1, d :: r.2)
    else (.ok d, [])

/-- Outcome of WaitForPushCode. -/
inductive WaitResult where
  /-- a frame matching one of the wanted codes -/
  | frame (d : List Nat)
  /-- a readFrame failure propagated to the caller -/
  | readError (e : GoErr)
  /-- the timeout-waiting-for-response error -/
  | timeout
deriving DecidableEq, Repr

/-- Embeds WaitForPushCode from serial.go: reads frames until one starts with
a wanted code; empty and non-matching frames are skipped without dispatch;
when the deadline passes (list exhausted) the timeout error is returned.  The
second component collects the frames passed to handlePushMessage — the loop
never dispatches, so it stays empty. -/
def WaitForPushCode (wantCodes : List Nat) :
    List (Except GoErr (List Nat)) → WaitResult × List (List Nat)
  | [] => (.timeout, [])
  | .error e :: _ => (.readError e, [])
  | .ok d :: rest =>
    if d.length = 0 then WaitForPushCode wantCodes rest
    else if d.getD 0 0 ∈ wantCodes then (.frame d, [])
    else WaitForPushCode wantCodes rest

/-! ## Contact directory (serial.go) -/

/-- ASCII lower-casing of one byte, the fragment of Unicode case folding that
strings.EqualFold applies to ASCII letters. -/
def asciiToLower (c : Nat) : Nat := if 65 ≤ c ∧ c ≤ 90 then c + 32 else c

/-- Embeds the strings.EqualFold comparison of two ASCII names. -/
def equalFold (a b : List Nat) : Bool :=
  a.map asciiToLower == b.map asciiToLower

/-- ASCII code of one uppercase hex digit. -/
def hexChar (n : Nat) : Nat := if n < 10 then 48 + n else 55 + n

/-- Models the Go format %02X of a byte as the codes of its two hex digits. -/
def hexByte (b : Nat) : List Nat := [hexChar (b / 16 % 16), hexChar (b % 16)]

/-- The two lookup maps of the Radio from serial.go.  A `none` map models a
Go nil map.  The 4-hex-char pubkey prefix key of contactsMap is modelled by
the byte pair it injectively encodes. -/
structure RadioMaps where
  contactsMap : Option ((Nat × Nat) → Option (List Nat))
  pathByteMap : Option (Nat → Option (List Nat))

/-- Embeds AddSelfToContacts from serial.go: nil maps are allocated, the
prefix entry is overwritten unconditionally, and the path-byte entry is set
only when the first pubkey byte has no entry yet. -/
def AddSelfToContacts (r : RadioMaps) (info : SelfInfo) : RadioMaps :=
  let cm := r.contactsMap.getD (fun _ => none)
  let pm := r.pathByteMap.getD (fun _ => none)
  let pk0 := info.PubKey.getD 0 0
  let pk1 := info.PubKey.getD 1 0
  let cm2 := fun k => if k = (pk0, pk1) then some info.Name else cm k
  let pm2 :=
    match pm pk0 with
    | some _ => pm
    | none => fun b => if b = pk0 then some info.Name else pm b
  ⟨some cm2, some pm2⟩

/-- Embeds LookupSenderByPathByte from serial.go. -/
def LookupSenderByPathByte (r : RadioMaps) (b : Nat) : List Nat :=
  match r.pathByteMap with
  | none => hexByte b
  | some pm =>
    match pm b with
    | some name => name
    | none => hexByte b

/-! ## Reconnect recovery loop (main package) -/

/-- Embeds the delay computation in reconnect: delay = attempt x 5 seconds,
capped at 60 seconds (values in seconds). -/
def reconnectDelaySecs (attempt : Nat) : Nat := min (attempt * 5) 60

/-- Embeds the retry loop of reconnect from the main package: env tells
whether reconnect attempt number j succeeds; the loop runs until the first
success, sleeping reconnectDelaySecs after each failure.  The fuel bounds the
number of observed attempts: `none` means no attempt within the fuel
succeeded, so the loop is still running.  On success it returns the
succeeding attempt number and the list of delays slept. -/
def reconnectLoop (env : Nat → Bool) : Nat → Nat → Option (Nat × List Nat)
  | _attempt, 0 => none
  | attempt, fuel + 1 =>
    if env attempt then some (attempt, [])
    else
      match reconnectLoop env (attempt + 1) fuel with
      | none => none
      | some (k, ds) => some (k, reconnectDelaySecs attempt :: ds)

/-! ## Remote polling state machine (collectRemoteMetrics, main package)

One tick of the collect closure is embedded as a function of the mutable
closure state (targetContact, loggedIn) and a tick environment listing the
outcome of each radio operation the tick may perform.  Wall-clock time is
abstracted: refreshDue stands for time.Since(lastContactRefresh) exceeding
the hourly refresh interval, and lastContactRefresh itself is not tracked.
Each radio call either succeeds or fails with a GoErr whose serial flag is
the isSerialError classification of its message. -/

/-- Mutable state of the remote polling loop. -/
structure PollState where
  targetContact : Option Contact
  loggedIn : Bool
deriving DecidableEq, Repr

/-- Outcomes of the radio operations one tick may perform. -/
structure TickEnv where
  refreshDue : Bool
  refreshRes : Except GoErr (List Contact)
  appStartRes : Except GoErr SelfInfo
  contactsRes : Except GoErr (List Contact)
  sendLoginRes : Except GoErr Unit
  loginPushRes : Except GoErr (List Nat)
  sendStatusRes : Except GoErr Unit
  statusPushRes : Except GoErr (List Nat)
deriving DecidableEq, Repr

/-- Result of one tick: the new closure state, the reconnected flag returned
by collect, whether a send-login command was issued, and the pubkey a status
request was sent to (none when no status request was issued). -/
structure TickResult where
  state : PollState
  reconnected : Bool
  sentLogin : Bool
  sentStatusTo : Option (List Nat)
deriving DecidableEq, Repr

/-- Embeds the discovery loop over contacts: the Go for-loop assigns
targetContact on every case-insensitive name match, so the last match wins. -/
def findTarget (repeaterName : List Nat) (contacts : List Contact) : Option Contact :=
  contacts.foldl
    (fun acc c => if equalFold c.Name repeaterName then some c else acc) none

/-- Embeds the status-request phase of collect (SendStatusReq then
WaitForPushCode for the status push).  On any error loggedIn is cleared and
handleIOError decides between reconnect (serial) and plain false. -/
def statusStep (tc : Contact) (lg : Bool) (sentLogin : Bool) (env : TickEnv) :
    TickResult :=
  match env.sendStatusRes with
  | .error e =>
    if e.serial then ⟨⟨none, false⟩, true, sentLogin, some tc.PubKey⟩
    else ⟨⟨some tc, false⟩, false, sentLogin, some tc.PubKey⟩
  | .ok _ =>
    match env.statusPushRes with
    | .error e =>
      if e.serial then ⟨⟨none, false⟩, true, sentLogin, some tc.PubKey⟩
      else ⟨⟨some tc, false⟩, false, sentLogin, some tc.PubKey⟩
    | .ok _d => ⟨⟨some tc, lg⟩, false, sentLogin, some tc.PubKey⟩

/-- Embeds the login phase of collect: skipped unless loggedIn is false and
the password is non-empty; a login failure push ends the tick; a wait error
that is not fatal falls through to the status request without confirmed
login. -/
def loginStep (password : List Nat) (tc : Contact) (lg : Bool) (env : TickEnv) :
    TickResult :=
  if lg = false ∧ password ≠ [] then
    match env.sendLoginRes with
    | .error e =>
      if e.serial then ⟨⟨none, false⟩, true, true, none⟩
      else ⟨⟨some tc, lg⟩, false, true, none⟩
    | .ok _ =>
      match env.loginPushRes with
      | .error e =>
        if e.serial then ⟨⟨none, false⟩, true, true, none⟩
        else statusStep tc lg true env
      | .ok d =>
        if d.getD 0 0 = PushCodeLoginSuccess then statusStep tc true true env
        else ⟨⟨some tc, lg⟩, false, true, none⟩
  else statusStep tc lg false env

/-- Embeds the discovery phase of collect (AppStart, GetContacts, target
search) followed by the login and status phases. -/
def discoveryAndRest (repeaterName password : List Nat) (st : PollState)
    (env : TickEnv) : TickResult :=
  match st.targetContact with
  | some tc => loginStep password tc st.loggedIn env
  | none =>
    match env.appStartRes with
    | .error e =>
      if e.serial then ⟨⟨none, false⟩, true, false, none⟩
      else ⟨st, false, false, none⟩
    | .ok _selfInfo =>
      match env.contactsRes with
      | .error e =>
        if e.serial then ⟨⟨none, false⟩, true, false, none⟩
        else ⟨st, false, false, none⟩
      | .ok contacts =>
        match findTarget repeaterName contacts with
        | none => ⟨st, false, false, none⟩
        | some tc => loginStep password tc st.loggedIn env

/-- Embeds one run of the collect closure from collectRemoteMetrics: the
hourly contact refresh (when due and a target exists), then discovery, login
and status phases. -/
def collectTick (repeaterName password : List Nat) (st : PollState)
    (env : TickEnv) : TickResult :=
  if st.targetContact.isSome ∧ env.refreshDue = true then
    match env.refreshRes with
    | .error e =>
      if e.serial then ⟨⟨none, false⟩, true, false, none⟩
      else discoveryAndRest repeaterName password st env
    | .ok _ => discoveryAndRest repeaterName password st env
  else discoveryAndRest repeaterName password st env

/-- States of the remote polling loop reachable from the initial state
(no target, not logged in) by running ticks. -/
inductive Reachable (repeaterName password : List Nat) : PollState → Prop
  | init : Reachable repeaterName password ⟨none, false⟩
  | step (st : PollState) (env : TickEnv) :
      Reachable repeaterName password st →
      Reachable repeaterName password
        ((collectTick repeaterName password st env).state)

/-! ## Concrete inputs used by the closed witnesses -/

/-- A concrete contact used by the closed witnesses. -/
def sampleContact : Contact :=
  { PubKey := List.replicate 32 9, Typ := 2, Flags := 0, Name := [82, 69, 80]
    OutPathLen := 0, LatE6 := 0, LonE6 := 0 }

/-- A tick environment whose contact refresh is due and fails with a fatal
transport error; everything else succeeds. -/
def sampleEnvSerialRefresh : TickEnv :=
  { refreshDue := true, refreshRes := .error ⟨true⟩
    appStartRes := .error ⟨false⟩, contactsRes := .error ⟨false⟩
    sendLoginRes := .ok (), loginPushRes := .ok [0x85]
    sendStatusRes := .ok (), statusPushRes := .ok [0x87] }

/-- A tick environment with no refresh due and every operation succeeding. -/
def sampleEnvOk : TickEnv :=
  { refreshDue := false, refreshRes := .ok []
    appStartRes := .ok ⟨[], [], 0, 0⟩, contactsRes := .ok []
    sendLoginRes := .ok (), loginPushRes := .ok [0x85]
    sendStatusRes := .ok (), statusPushRes := .ok [0x87] }

/-- A reconnect environment whose third attempt is the first success. -/
def envThirdAttempt : Nat → Bool := fun j => decide (j = 3)

/-- A reconnect environment where every attempt fails. -/
def envNeverSucceeds : Nat → Bool := fun _ => false

/-- A path-byte map with one entry, byte 9 mapped to the name A. -/
def samplePathMap : Nat → Option (List Nat) :=
  fun b => if b = 9 then some [65] else none

/-- Radio maps with a nil prefix map and samplePathMap as path map. -/
def sampleMaps : RadioMaps := ⟨none, some samplePathMap⟩

/-- A self record whose pubkey starts with bytes 9, 4 and whose name is Z. -/
def sampleSelf : SelfInfo := ⟨9 :: 4 :: List.replicate 30 0, [90], 0, 0⟩

/-- The empty prefix map used as the nil-map default. -/
def emptyPrefixMap : (Nat × Nat) → Option (List Nat) := fun _ => none

end MeshStats

namespace MeshStats

/-! ## Theorems for claims C1 and C7 -/

/-- C1: the claim states that whenever the minimum-length validation of
ParseStatusResponse passes, every fixed-offset field read (including
RxAirSecs) lies in bounds.  The code violates this: a 48-byte input passes
the `len(data) < 48` check, yet RxAirSecs is read from data[56:60], which is
out of range — the parse panics (modelled as `none`).  This theorem evaluates
the embedded code at the failing input. -/
theorem c1_oob_at_min_length :
    ParseStatusResponse (0x87 :: List.replicate 47 0) = none := by decide

/-- C7 counterexample: the claim states the opcode check runs before the
minimum-length check, so a too-short input with a wrong leading opcode is
reported as an opcode mismatch.  In the code the length check runs first:
ParseStatsCore on the 1-byte input [0] (wrong opcode, too short) returns the
insufficient-data error, which is not the invalid-response-type error. -/
theorem c7_length_checked_first :
    ParseStatsCore [0] = some (.error (.insufficient 1)) ∧
    PErr.insufficient 1 ≠ PErr.invalidType ∧
    PErr.insufficient 1 ≠ PErr.badOpcode 0 := by decide

/-- C7 (amended): every parse function of the protocol layer performs a
length validation before the opcode validation.  For every parse function
except ParseStatusResponse the length checked first is the full minimum
length, so a too-short input fails with the insufficient-data (truncation)
error regardless of its leading byte, and an input meeting the minimum
length with a wrong leading opcode fails with the unexpected-opcode error
(for the three get-stats parsers, with their combined invalid-response-type
error).  ParseStatusResponse checks only its 8-byte prefix bound before the
opcode and the full 48-byte minimum after it, so an input shorter than 8
bytes is reported as truncation, a wrong-opcode input of length at least 8
(even one shorter than 48) as an opcode mismatch, and a right-opcode input
of length 8 to 47 as truncation. -/
theorem c7_amended_length_before_opcode : ∀ d : List Nat,
    (d.length < 58 → ParseSelfInfo d = some (.error (.insufficient d.length))) ∧
    (58 ≤ d.length → d.getD 0 0 ≠ RespCodeSelfInfo →
      ParseSelfInfo d = some (.error (.badOpcode (d.getD 0 0)))) ∧
    (d.length < 1 → ParseVersion d = some (.error .empty)) ∧
    (1 ≤ d.length → d.getD 0 0 ≠ RespCodeVersion →
      ParseVersion d = some (.error (.badOpcode (d.getD 0 0)))) ∧
    (d.length < 13 →
      ParseOwnerInfoResponse d = some (.error (.insufficient d.length))) ∧
    (13 ≤ d.length → d.getD 0 0 ≠ PushCodeBinaryResponse →
      ParseOwnerInfoResponse d = some (.error (.badOpcode (d.getD 0 0)))) ∧
    (d.length < 5 →
      ParseContactsStart d = some (.error (.insufficient d.length))) ∧
    (5 ≤ d.length → d.getD 0 0 ≠ RespCodeContactsStart →
      ParseContactsStart d = some (.error (.badOpcode (d.getD 0 0)))) ∧
    (d.length < 148 → ParseContact d = some (.error (.insufficient d.length))) ∧
    (148 ≤ d.length → d.getD 0 0 ≠ RespCodeContact →
      ParseContact d = some (.error (.badOpcode (d.getD 0 0)))) ∧
    (d.length < 10 →
      ParseSentResponse d = some (.error (.insufficient d.length))) ∧
    (10 ≤ d.length → d.getD 0 0 ≠ RespCodeSent →
      ParseSentResponse d = some (.error (.badOpcode (d.getD 0 0)))) ∧
    (d.length < 8 →
      ParseLoginSuccess d = some (.error (.insufficient d.length))) ∧
    (8 ≤ d.length → d.getD 0 0 ≠ PushCodeLoginSuccess →
      ParseLoginSuccess d = some (.error (.badOpcode (d.getD 0 0)))) ∧
    (d.length < 8 →
      ParseStatusResponse d = some (.error (.insufficient d.length))) ∧
    (8 ≤ d.length → d.getD 0 0 ≠ PushCodeStatusResponse →
      ParseStatusResponse d = some (.error (.badOpcode (d.getD 0 0)))) ∧
    (8 ≤ d.length → d.length < 48 → d.getD 0 0 = PushCodeStatusResponse →
      ParseStatusResponse d = some (.error (.insufficient d.length))) ∧
    (d.length < 11 → ParseStatsCore d = some (.error (.insufficient d.length))) ∧
    (11 ≤ d.length → d.getD 0 0 ≠ RespCodeStats →
      ParseStatsCore d = some (.error .invalidType)) ∧
    (d.length < 14 →
      ParseStatsRadio d = some (.error (.insufficient d.length))) ∧
    (14 ≤ d.length → d.getD 0 0 ≠ RespCodeStats →
      ParseStatsRadio d = some (.error .invalidType)) ∧
    (d.length < 26 →
      ParseStatsPackets d = some (.error (.insufficient d.length))) ∧
    (26 ≤ d.length → d.getD 0 0 ≠ RespCodeStats →
      ParseStatsPackets d = some (.error .invalidType)) := by
  intro d
  refine ⟨fun h => ?_, fun h hop => ?_, fun h => ?_, fun h hop => ?_,
    fun h => ?_, fun h hop => ?_, fun h => ?_, fun h hop => ?_,
    fun h => ?_, fun h hop => ?_, fun h => ?_, fun h hop => ?_,
    fun h => ?_, fun h hop => ?_, fun h => ?_, fun h hop => ?_,
    fun h h48 hop => ?_, fun h => ?_, fun h hop => ?_,
    fun h => ?_, fun h hop => ?_, fun h => ?_, fun h hop => ?_⟩
  · simp [ParseSelfInfo, h]
  · rw [ParseSelfInfo, if_neg (by omega), if_pos hop]
  · simp [ParseVersion, h]
  · rw [ParseVersion, if_neg (by omega), if_pos hop]
  · simp [ParseOwnerInfoResponse, h]
  · rw [ParseOwnerInfoResponse, if_neg (by omega), if_pos hop]
  · simp [ParseContactsStart, h]
  · rw [ParseContactsStart, if_neg (by omega), if_pos hop]
  · simp [ParseContact, h]
  · rw [ParseContact, if_neg (by omega), if_pos hop]
  · simp [ParseSentResponse, h]
  · rw [ParseSentResponse, if_neg (by omega), if_pos hop]
  · simp [ParseLoginSuccess, h]
  · rw [ParseLoginSuccess, if_neg (by omega), if_pos hop]
  · simp [ParseStatusResponse, h]
  · rw [ParseStatusResponse, if_neg (by omega), if_pos hop]
  · rw [ParseStatusResponse, if_neg (by omega), if_neg (by rw [hop]; simp),
      if_pos h48]
  · simp [ParseStatsCore, h]
  · rw [ParseStatsCore, if_neg (by omega), if_pos (Or.inl hop)]
  · simp [ParseStatsRadio, h]
  · rw [ParseStatsRadio, if_neg (by omega), if_pos (Or.inl hop)]
  · simp [ParseStatsPackets, h]
  · rw [ParseStatsPackets, if_neg (by omega), if_pos (Or.inl hop)]

/-- Witness for the amended C7 theorem at concrete inputs, including the
ParseStatusResponse exception: a wrong-opcode 10-byte input is reported as
an opcode mismatch even though it is far below the 48-byte minimum. -/
theorem c7_amended_length_before_opcode_witness :
    ParseStatsCore [0] = some (.error (.insufficient 1)) ∧
    ParseSelfInfo (7 :: List.replicate 57 0) =
      some (.error (.badOpcode 7)) ∧
    ParseStatusResponse (1 :: List.replicate 9 0) =
      some (.error (.badOpcode 1)) ∧
    ParseStatusResponse (0x87 :: List.replicate 9 0) =
      some (.error (.insufficient 10)) :=
  ⟨(c7_amended_length_before_opcode [0]).2.2.2.2.2.2.2.2.2.2.2.2.2.2.2.2.2.1
     (by decide),
   (c7_amended_length_before_opcode (7 :: List.replicate 57 0)).2.1
     (by decide) (by decide),
   (c7_amended_length_before_opcode
      (1 :: List.replicate 9 0)).2.2.2.2.2.2.2.2.2.2.2.2.2.2.2.1
     (by decide) (by decide),
   (c7_amended_length_before_opcode
      (0x87 :: List.replicate 9 0)).2.2.2.2.2.2.2.2.2.2.2.2.2.2.2.2.1
     (by decide) (by decide) (by decide)⟩

/-! ## Theorems for claims C5 and C6 -/

/-- Helper: when the first scheduled read can deliver the whole payload, the
payload loop returns the buffer contents exactly. -/
theorem readPayloadLoop_exact (L d : Nat) (sched : List (Option Nat)) (buf : List Nat)
    (hbuf : buf.length = L) (hd : L ≤ d) :
    ∃ s r, readPayloadLoop L (some d :: sched) [] buf = Except.ok (buf, s, r) := by
  rcases Nat.eq_zero_or_pos L with h0 | hpos
  · subst h0
    have hb : buf = [] := List.eq_nil_of_length_eq_zero hbuf
    subst hb
    exact ⟨some d :: sched, [], by unfold readPayloadLoop; simp⟩
  · refine ⟨sched, [], ?_⟩
    unfold readPayloadLoop
    rw [if_pos (by simpa using hpos)]
    show readPayloadLoop L sched
        ([] ++ buf.take (min (L - ([] : List Nat).length) (min d buf.length)))
        (buf.drop (min (L - ([] : List Nat).length) (min d buf.length)))
        = Except.ok (buf, sched, [])
    have hn : min (L - ([] : List Nat).length) (min d buf.length) = L := by
      simp [hbuf]; omega
    rw [hn]
    have htake : buf.take L = buf := by rw [← hbuf]; exact List.take_length buf
    have hdrop : buf.drop L = [] := by rw [← hbuf]; exact List.drop_length buf
    rw [htake, hdrop, List.nil_append]
    unfold readPayloadLoop
    rw [if_neg (by simp [hbuf])]

/-- C5: for every payload of at most 509 bytes, writing a frame (header byte,
little-endian 16-bit length, payload) and reading it back with readFrame
using the device-to-host marker recovers exactly the payload, on a transport
whose reads deliver the requested bytes. -/
theorem c5_frame_roundtrip : ∀ p : List Nat, p.length ≤ 509 → (∀ b ∈ p, b < 256) →
    readFramePayload [some 3, some 512] (encodeFrame frameHeaderRx p) = .ok p := by
  intro p hlen _hbytes
  have hmod : p.length % 65536 = p.length := Nat.mod_eq_of_lt (by omega)
  have henc : encodeFrame frameHeaderRx p
      = 62 :: (p.length % 256) :: ((p.length / 256) % 256) :: p := by
    simp [encodeFrame, frameHeaderRx, hmod]
  have hport : portRead 3 [some 3, some 512]
        (62 :: (p.length % 256) :: ((p.length / 256) % 256) :: p)
      = some ([62, p.length % 256, (p.length / 256) % 256], [some 512], p) := by
    unfold portRead
    have hn : min 3 (min 3 (62 :: (p.length % 256) :: ((p.length / 256) % 256) :: p).length)
        = 3 := by simp
    simp only [hn]
    constructor
  have hdiv : (p.length / 256) % 256 = p.length / 256 := Nat.mod_eq_of_lt (by omega)
  have hL : le16 (p.length % 256) ((p.length / 256) % 256) = p.length := by
    rw [le16, hdiv, Nat.mod_add_div]
  obtain ⟨s, r, hloop⟩ :=
    readPayloadLoop_exact p.length 512 [] p rfl (by omega)
  have hrf : readFrame [some 3, some 512] (encodeFrame frameHeaderRx p)
      = .ok (p, s, r) := by
    rw [readFrame, henc, hport]
    simp only [List.length_cons, List.length_nil]
    rw [show (3 : Nat) - 3 = 0 from rfl]
    simp only [List.replicate, List.append_nil]
    rw [if_neg (by simp [frameHeaderRx])]
    simp only [List.getD, List.get?, Option.getD_some]
    rw [hL]
    rw [if_neg (by simp [maxFrameSize]; omega)]
    exact hloop
  simp [readFramePayload, hrf]

/-- Witness for C5 at a concrete payload. -/
theorem c5_frame_roundtrip_witness :
    readFramePayload [some 3, some 512] (encodeFrame frameHeaderRx [10, 20, 30])
      = .ok [10, 20, 30] :=
  c5_frame_roundtrip [10, 20, 30] (by decide) (by decide)

/-- C6: the claim states readFrame obtains 3 actually-received header bytes
even when a single read call delivers fewer.  The code issues one port.Read
for the header and ignores the returned byte count, so a transport that
delivers only 1 byte of the valid frame 3E 01 00 05 on the first call makes
readFrame interpret the zero-padded header as declaring length 0 and return
an empty payload, leaving the real length and payload bytes unread; the same
byte stream delivered 3-bytes-first yields the true payload [5]. -/
theorem c6_header_short_read :
    readFramePayload [some 1, some 512] (encodeFrame frameHeaderRx [5]) = .ok [] ∧
    readFramePayload [some 3, some 512] (encodeFrame frameHeaderRx [5]) = .ok [5] ∧
    readFramePayload [some 3, some 512] (7 :: 1 :: 0 :: [5]) = .error (.badHeader 7) := by
  refine ⟨?_, ?_, ?_⟩ <;> rfl

/-! ## Theorems for claims C3 and C4 -/

/-- C3: WaitForPushCode returns the first frame whose leading opcode is one
of the wanted codes, discarding every earlier non-matching frame without ever
passing one to the push dispatcher (the dispatched list stays empty), and
when no matching frame arrives before the deadline — the list of reads that
start before the deadline is exhausted without a match or a read error — it
fails with the timeout outcome. -/
theorem c3_wait_first_match_or_timeout : ∀ codes : List Nat,
    (∀ (pre : List (List Nat)) (d : List Nat) (rest : List (Except GoErr (List Nat))),
      (∀ f ∈ pre, f.length = 0 ∨ f.getD 0 0 ∉ codes) →
      0 < d.length → d.getD 0 0 ∈ codes →
      WaitForPushCode codes (pre.map Except.ok ++ Except.ok d :: rest)
        = (.frame d, [])) ∧
    (∀ frames : List (Except GoErr (List Nat)),
      (∀ x : List Nat, Except.ok x ∈ frames → x.length = 0 ∨ x.getD 0 0 ∉ codes) →
      (∀ e : GoErr, Except.error e ∈ frames → False) →
      WaitForPushCode codes frames = (.timeout, [])) := by
  intro codes
  have hmatch : ∀ (d : List Nat) (rest : List (Except GoErr (List Nat))),
      0 < d.length → d.getD 0 0 ∈ codes →
      WaitForPushCode codes (.ok d :: rest) = (.frame d, []) := by
    intro d rest hd hm
    show (if d.length = 0 then WaitForPushCode codes rest
          else if d.getD 0 0 ∈ codes then (.frame d, [])
          else WaitForPushCode codes rest) = _
    rw [if_neg (by omega), if_pos hm]
  have hskip : ∀ (d : List Nat) (rest : List (Except GoErr (List Nat))),
      d.length = 0 ∨ d.getD 0 0 ∉ codes →
      WaitForPushCode codes (.ok d :: rest) = WaitForPushCode codes rest := by
    intro d rest h
    show (if d.length = 0 then WaitForPushCode codes rest
          else if d.getD 0 0 ∈ codes then (.frame d, [])
          else WaitForPushCode codes rest) = _
    by_cases hz : d.length = 0
    · rw [if_pos hz]
    · rw [if_neg hz, if_neg (h.resolve_left hz)]
  constructor
  · intro pre
    induction pre with
    | nil =>
      intro d rest _hpre hd hmem
      simpa using hmatch d rest hd hmem
    | cons f pre ih =>
      intro d rest hpre hd hmem
      simp only [List.map_cons, List.cons_append]
      rw [hskip f _ (hpre f (by simp))]
      exact ih d rest (fun g hg => hpre g (by simp [hg])) hd hmem
  · intro frames
    induction frames with
    | nil => intro _ _; rfl
    | cons f rest ih =>
      intro hok herr
      cases f with
      | error e => exact absurd (by simp) (fun h => herr e h)
      | ok x =>
        rw [hskip x rest (hok x (by simp))]
        exact ih (fun y hy => hok y (by simp [hy])) (fun e he => herr e (by simp [he]))

/-- Witness for C3: two non-matching frames and an empty frame are skipped
before the matching frame is returned; an all-non-matching sequence ends in
the timeout outcome. -/
theorem c3_wait_first_match_or_timeout_witness :
    WaitForPushCode [0x85, 0x86]
        [.ok [1], .ok [], .ok [0x88, 2], .ok [0x86, 7]]
      = (.frame [0x86, 7], []) ∧
    WaitForPushCode [0x85, 0x86] [.ok [1]] = (.timeout, []) :=
  ⟨(c3_wait_first_match_or_timeout [0x85, 0x86]).1 [[1], [], [0x88, 2]] [0x86, 7] []
      (by decide) (by decide) (by decide),
   (c3_wait_first_match_or_timeout [0x85, 0x86]).2 [.ok [1]]
      (fun x hx => by simp at hx; subst hx; decide)
      (fun e he => by simp at he)⟩

/-- C4: with three inbound push frames (leading opcode at least 0x80)
followed by a non-push frame, readCommandResponse returns the non-push frame
as the command response and hands exactly the three push frames to the push
dispatcher, in arrival order. -/
theorem c4_pushes_then_response :
    ∀ (p1 p2 p3 r : List Nat) (rest : List (Except GoErr (List Nat))),
    0 < p1.length → isPushCode (p1.getD 0 0) = true →
    0 < p2.length → isPushCode (p2.getD 0 0) = true →
    0 < p3.length → isPushCode (p3.getD 0 0) = true →
    (r.length = 0 ∨ isPushCode (r.getD 0 0) = false) →
    readCommandResponse (.ok p1 :: .ok p2 :: .ok p3 :: .ok r :: rest)
      = (.ok r, [p1, p2, p3]) := by
  intro p1 p2 p3 r rest h1 hp1 h2 hp2 h3 hp3 hr
  have step : ∀ (d : List Nat) (tail : List (Except GoErr (List Nat))),
      0 < d.length → isPushCode (d.getD 0 0) = true →
      readCommandResponse (.ok d :: tail)
        = ((readCommandResponse tail).1, d :: (readCommandResponse tail).2) := by
    intro d tail hd hp
    show (if 0 < d.length ∧ isPushCode (d.getD 0 0) = true then
            ((readCommandResponse tail).1, d :: (readCommandResponse tail).2)
          else (Except.ok d, [])) = _
    rw [if_pos ⟨hd, hp⟩]
  have last : readCommandResponse (.ok r :: rest) = (.ok r, []) := by
    show (if 0 < r.length ∧ isPushCode (r.getD 0 0) = true then
            ((readCommandResponse rest).1, r :: (readCommandResponse rest).2)
          else (Except.ok r, [])) = _
    rw [if_neg]
    rintro ⟨hl, hp⟩
    rcases hr with h0 | hf
    · omega
    · rw [hf] at hp; exact Bool.false_ne_true hp
  rw [step p1 _ h1 hp1, step p2 _ h2 hp2, step p3 _ h3 hp3, last]

/-- Witness for C4 at concrete frames. -/
theorem c4_pushes_then_response_witness :
    readCommandResponse [.ok [0x85], .ok [0x88, 1], .ok [0x87], .ok [0, 9]]
      = (.ok [0, 9], [[0x85], [0x88, 1], [0x87]]) :=
  c4_pushes_then_response [0x85] [0x88, 1] [0x87] [0, 9] []
    (by decide) (by decide) (by decide) (by decide) (by decide) (by decide)
    (by decide)

/-! ## Theorems for claims C2 and C9 -/

/-- Helper: one tick preserves the login invariant. -/
theorem collectTick_preserves_inv (rep pw : List Nat) (st : PollState)
    (env : TickEnv) (hst : st.loggedIn = true → st.targetContact.isSome = true) :
    (collectTick rep pw st env).state.loggedIn = true →
    (collectTick rep pw st env).state.targetContact.isSome = true := by
  simp only [collectTick, discoveryAndRest, loginStep, statusStep]
  repeat' split
  all_goals simp_all

/-- Helper: a tick that reports a reconnect leaves the cleared state. -/
theorem collectTick_reconnect_clears (rep pw : List Nat) (st : PollState)
    (env : TickEnv) :
    (collectTick rep pw st env).reconnected = true →
    (collectTick rep pw st env).state = ⟨none, false⟩ := by
  simp only [collectTick, discoveryAndRest, loginStep, statusStep]
  repeat' split
  all_goals simp_all

/-- C2: in the remote polling state machine every reachable state satisfies
the invariant that loggedIn implies a target contact is present, and every
tick that triggers a reconnect (a fatal transport error in any phase) clears
targetContact and loggedIn together in that same step, so the next tick
re-enters discovery. -/
theorem c2_invariant_and_atomic_reset : ∀ rep pw : List Nat,
    (∀ st, Reachable rep pw st → st.loggedIn = true →
      st.targetContact.isSome = true) ∧
    (∀ st env, (collectTick rep pw st env).reconnected = true →
      (collectTick rep pw st env).state = ⟨none, false⟩) := by
  intro rep pw
  constructor
  · intro st hreach
    induction hreach with
    | init => simp
    | step st2 env _hr ih => exact collectTick_preserves_inv rep pw st2 env ih
  · intro st env
    exact collectTick_reconnect_clears rep pw st env

/-- Witness for C2: a tick whose due contact refresh fails fatally reports a
reconnect, and the resulting state has both fields cleared. -/
theorem c2_invariant_and_atomic_reset_witness :
    (collectTick [82, 69, 80] [112] ⟨some sampleContact, true⟩
        sampleEnvSerialRefresh).state = ⟨none, false⟩ :=
  (c2_invariant_and_atomic_reset [82, 69, 80] [112]).2
    ⟨some sampleContact, true⟩ sampleEnvSerialRefresh (by decide)

/-- C9 counterexample: the claim states that with an empty password a status
request is still sent on every tick once the target contact has been
discovered.  On a tick whose hourly contact refresh is due and fails with a
fatal transport error, collect reconnects and returns before the status
request: no status request is issued although the tick started with the
target discovered and the password empty. -/
theorem c9_refresh_error_skips_status :
    (collectTick [82, 69, 80] [] ⟨some sampleContact, false⟩
        sampleEnvSerialRefresh).sentStatusTo = none ∧
    (⟨some sampleContact, false⟩ : PollState).targetContact.isSome = true := by
  decide

/-- C9 (amended): with an empty password the login step is skipped on every
tick (no send-login is issued and loggedIn stays false, in every reachable
state), and once the target contact has been discovered a status request is
sent to its pubkey on every tick except one whose due contact refresh fails
with a fatal transport error (which reconnects instead). -/
theorem c9_amended_empty_password : ∀ (rep : List Nat) (st : PollState)
    (env : TickEnv),
    (collectTick rep [] st env).sentLogin = false ∧
    (st.loggedIn = false → (collectTick rep [] st env).state.loggedIn = false) ∧
    (∀ st2, Reachable rep [] st2 → st2.loggedIn = false) ∧
    (∀ tc, st.targetContact = some tc →
      (env.refreshDue = true → ∀ e, env.refreshRes = .error e → e.serial = false) →
      (collectTick rep [] st env).sentStatusTo = some tc.PubKey) := by
  intro rep st env
  have hnologin : ∀ (st3 : PollState) (env3 : TickEnv),
      (collectTick rep [] st3 env3).sentLogin = false := by
    intro st3 env3
    simp only [collectTick, discoveryAndRest, loginStep, statusStep]
    repeat' split
    all_goals simp_all
  have hstaysout : ∀ (st3 : PollState) (env3 : TickEnv), st3.loggedIn = false →
      (collectTick rep [] st3 env3).state.loggedIn = false := by
    intro st3 env3 h3
    simp only [collectTick, discoveryAndRest, loginStep, statusStep]
    repeat' split
    all_goals simp_all
  refine ⟨hnologin st env, hstaysout st env, ?_, ?_⟩
  · intro st2 hreach
    induction hreach with
    | init => rfl
    | step st3 env3 _hr ih => exact hstaysout st3 env3 ih
  · intro tc htc href
    have hstat : ∀ (lg s : Bool),
        (statusStep tc lg s env).sentStatusTo = some tc.PubKey := by
      intro lg s
      simp only [statusStep]
      repeat' split
      all_goals simp_all
    have hlogin : ∀ lg : Bool,
        (loginStep [] tc lg env).sentStatusTo = some tc.PubKey := by
      intro lg
      simp only [loginStep]
      rw [if_neg (by simp)]
      exact hstat lg false
    have hdisc : (discoveryAndRest rep [] st env).sentStatusTo
        = some tc.PubKey := by
      simp only [discoveryAndRest, htc]
      exact hlogin st.loggedIn
    simp only [collectTick]
    by_cases hdue : st.targetContact.isSome = true ∧ env.refreshDue = true
    · rw [if_pos hdue]
      split
      · next e henv =>
        have hser : e.serial = false := href hdue.2 e henv
        rw [if_neg (by simp [hser])]
        exact hdisc
      · next => exact hdisc
    · rw [if_neg hdue]
      exact hdisc

/-- Witness for the amended C9 theorem on a healthy tick: no login command is
issued and the status request goes to the discovered contact. -/
theorem c9_amended_empty_password_witness :
    (collectTick [82, 69, 80] [] ⟨some sampleContact, false⟩
        sampleEnvOk).sentLogin = false ∧
    (collectTick [82, 69, 80] [] ⟨some sampleContact, false⟩
        sampleEnvOk).sentStatusTo = some sampleContact.PubKey :=
  ⟨(c9_amended_empty_password [82, 69, 80] ⟨some sampleContact, false⟩
      sampleEnvOk).1,
   (c9_amended_empty_password [82, 69, 80] ⟨some sampleContact, false⟩
      sampleEnvOk).2.2.2 sampleContact rfl
      (by intro h e he; simp [sampleEnvOk] at h)⟩

/-! ## Theorem for claim C8 -/

/-- Helper: the reconnect loop started at attempt a reaches the first
succeeding attempt k, sleeping the linearly increasing capped delay after
each failed attempt. -/
theorem reconnectLoop_reaches (env : Nat → Bool) (k : Nat) (hk : env k = true) :
    ∀ fuel a, a ≤ k → (∀ j, a ≤ j → j < k → env j = false) → k - a < fuel →
    reconnectLoop env a fuel
      = some (k, (List.range (k - a)).map (fun i => reconnectDelaySecs (a + i))) := by
  intro fuel
  induction fuel with
  | zero => intro a _ _ h; omega
  | succ fuel ih =>
    intro a hak hbef hlt
    by_cases hae : a = k
    · subst hae
      simp [reconnectLoop, hk]
    · have halt : a < k := by omega
      have hfa : env a = false := hbef a (le_refl a) halt
      have hrec := ih (a + 1) (by omega)
        (fun j h1 h2 => hbef j (by omega) h2) (by omega)
      show (if env a then some (a, [])
            else
              match reconnectLoop env (a + 1) fuel with
              | none => none
              | some (k2, ds) => some (k2, reconnectDelaySecs a :: ds)) = _
      rw [hfa, if_neg (by simp), hrec]
      have hsplit : k - a = (k - (a + 1)) + 1 := by omega
      rw [hsplit, List.range_succ_eq_map, List.map_cons, List.map_map]
      have harg : ((fun i => reconnectDelaySecs (a + i)) ∘ Nat.succ)
          = fun i => reconnectDelaySecs (a + 1 + i) := by
        funext j
        have hj : a + Nat.succ j = a + 1 + j := by omega
        simp [Function.comp, hj]
      simp [harg]

/-- C8: after the best-effort reboot, the reconnect loop retries reopening
the port until an attempt succeeds — running forever when none does — and
after failed attempt number n it sleeps n times the 5-second base delay,
capped at 60 seconds.  With the first success at attempt k, the loop returns
at attempt k having slept min(n*5, 60) seconds after each failed attempt
n = 1 .. k-1; with no succeeding attempt it never returns within any bound. -/
theorem c8_reconnect_backoff : ∀ (env : Nat → Bool) (k : Nat),
    1 ≤ k → env k = true → (∀ j, 1 ≤ j → j < k → env j = false) →
    (∀ fuel, k ≤ fuel →
      reconnectLoop env 1 fuel
        = some (k, (List.range (k - 1)).map (fun i => min ((1 + i) * 5) 60))) ∧
    (∀ env2 : Nat → Bool, (∀ j, env2 j = false) →
      ∀ fuel, reconnectLoop env2 1 fuel = none) := by
  intro env k hk1 hk hbef
  constructor
  · intro fuel hfuel
    have h := reconnectLoop_reaches env k hk fuel 1 hk1
      (fun j h1 h2 => hbef j h1 h2) (by omega)
    rw [h]
    simp [reconnectDelaySecs]
  · intro env2 hall
    have h : ∀ fuel a, reconnectLoop env2 a fuel = none := by
      intro fuel
      induction fuel with
      | zero => intro a; rfl
      | succ fuel ih =>
        intro a
        show (if env2 a then some (a, [])
              else
                match reconnectLoop env2 (a + 1) fuel with
                | none => none
                | some (k2, ds) => some (k2, reconnectDelaySecs a :: ds)) = none
        rw [hall a, if_neg (by simp), ih (a + 1)]
    intro fuel
    exact h fuel 1

/-- Witness for C8: with the first success at attempt 3 the loop returns at
attempt 3 after sleeping 5 then 10 seconds; with no success it has not
returned after 9 attempts. -/
theorem c8_reconnect_backoff_witness :
    reconnectLoop envThirdAttempt 1 5 = some (3, [5, 10]) ∧
    reconnectLoop envNeverSucceeds 1 9 = none := by
  have h := c8_reconnect_backoff envThirdAttempt 3 (by decide)
    (by decide) (by intro j h1 h2; simp [envThirdAttempt]; omega)
  exact ⟨h.1 5 (by decide), h.2 envNeverSucceeds (fun _ => rfl) 9⟩

/-! ## Theorem for claim C10 -/

/-- C10: AddSelfToContacts leaves every existing path-hash entry unchanged —
the self name is registered under the first self-key byte only when that byte
was previously unmapped, so LookupSenderByPathByte on a previously mapped
byte still returns the earlier name — and in the 2-byte-prefix index it
changes at most the entry for the self-key prefix, which it overwrites
unconditionally. -/
theorem c10_add_self_indices : ∀ (r : RadioMaps) (info : SelfInfo),
    (∀ b name, (r.pathByteMap.getD (fun _ => none)) b = some name →
      ((AddSelfToContacts r info).pathByteMap.getD (fun _ => none)) b
        = some name) ∧
    ((r.pathByteMap.getD (fun _ => none)) (info.PubKey.getD 0 0) = none →
      ((AddSelfToContacts r info).pathByteMap.getD (fun _ => none))
        (info.PubKey.getD 0 0) = some info.Name) ∧
    (∀ b, b ≠ info.PubKey.getD 0 0 →
      ((AddSelfToContacts r info).pathByteMap.getD (fun _ => none)) b
        = (r.pathByteMap.getD (fun _ => none)) b) ∧
    (∀ b name, (r.pathByteMap.getD (fun _ => none)) b = some name →
      LookupSenderByPathByte (AddSelfToContacts r info) b = name) ∧
    (∀ k, k ≠ (info.PubKey.getD 0 0, info.PubKey.getD 1 0) →
      ((AddSelfToContacts r info).contactsMap.getD (fun _ => none)) k
        = (r.contactsMap.getD (fun _ => none)) k) ∧
    ((AddSelfToContacts r info).contactsMap.getD (fun _ => none))
      (info.PubKey.getD 0 0, info.PubKey.getD 1 0) = some info.Name := by
  intro r info
  have hkeep : ∀ b name, (r.pathByteMap.getD (fun _ => none)) b = some name →
      ((AddSelfToContacts r info).pathByteMap.getD (fun _ => none)) b
        = some name := by
    intro b name hb
    simp only [AddSelfToContacts, Option.getD_some]
    split
    · exact hb
    · next h =>
      simp only []
      by_cases hbe : b = info.PubKey.getD 0 0
      · rw [hbe] at hb
        rw [hb] at h
        exact absurd h (by simp)
      · rw [if_neg hbe]
        exact hb
  refine ⟨hkeep, ?_, ?_, ?_, ?_, ?_⟩
  · intro hnone
    simp only [AddSelfToContacts, Option.getD_some]
    split
    · next h => rw [hnone] at h; exact absurd h (by simp)
    · next h => simp
  · intro b hbe
    simp only [AddSelfToContacts, Option.getD_some]
    split
    · rfl
    · next h =>
      simp only []
      rw [if_neg hbe]
  · intro b name hb
    have h2 := hkeep b name hb
    simp only [AddSelfToContacts, Option.getD_some] at h2
    simp only [LookupSenderByPathByte, AddSelfToContacts]
    rw [h2]
  · intro k hk
    simp only [AddSelfToContacts, Option.getD_some]
    rw [if_neg hk]
  · simp [AddSelfToContacts]

/-- Witness for C10: byte 9 is already mapped to name A, so adding a self
record whose pubkey starts with 9 keeps the lookup result A, while the
2-byte-prefix entry (9, 4) is written with the self name. -/
theorem c10_add_self_indices_witness :
    LookupSenderByPathByte (AddSelfToContacts sampleMaps sampleSelf) 9 = [65] ∧
    ((AddSelfToContacts sampleMaps sampleSelf).contactsMap.getD
        emptyPrefixMap) (9, 4) = some [90] :=
  ⟨(c10_add_self_indices sampleMaps sampleSelf).2.2.2.1 9 [65] (by decide),
   (c10_add_self_indices sampleMaps sampleSelf).2.2.2.2.2⟩

end MeshStats
